import Mathlib

/-!
Verification of the OTrader core runtime against its specification.

Shallow embedding conventions:
* C++ `double` values are modelled as exact rationals (`ℚ`); the half-up
  rounding helper `round_digits` is then exact.
* C++ `int` is modelled as `ℤ`; `static_cast<int>(std::abs(x))` on a
  non-negative double is truncation toward zero, i.e. `Int.floor` of `|x|`.
* Stateful member functions become pure functions from the old record to the
  new record; out-parameter vectors become returned lists.
* External numeric library calls (`std::erf`, `std::log`, `std::sqrt`,
  `std::exp` and the LetsBeRational implied-volatility routine, none of which
  are part of this repository) are passed in as explicit function parameters
  (`NumFuncs`), so every repository-side computation stays executable.
-/

namespace OTrader

/-- Direction of an order or trade (utilities/constant.hpp). -/
inductive Direction where
  | LONG
  | SHORT
  deriving DecidableEq, Repr

/-- Order type (utilities/constant.hpp). -/
inductive OrderType where
  | LIMIT
  | MARKET
  deriving DecidableEq, Repr

/-- Order status (utilities/constant.hpp). -/
inductive Status where
  | SUBMITTING
  | NOTTRADED
  | PARTTRADED
  | ALLTRADED
  | CANCELLED
  | REJECTED
  deriving DecidableEq, Repr

/-- HALF_UP rounding by decimal digits, from the anonymous helper
`round_digits` in core/engine_position.cpp: scale by `10^digits`, round
half away from zero with `floor(x+0.5)` / `ceil(x-0.5)`, scale back. -/
def round_digits (value : ℚ) (digits : ℤ) : ℚ :=
  if digits < 0 then value
  else
    let factor : ℚ := (10 : ℚ) ^ digits.toNat
    let scaled : ℚ := value * factor
    let rounded : ℤ := if 0 ≤ scaled then ⌊scaled + 1/2⌋ else ⌈scaled - 1/2⌉
    (rounded : ℚ) / factor

/-- Trade fill record (utilities/object.hpp `TradeData`), restricted to the
fields the position engine reads. -/
structure TradeData where
  symbol : String := ""
  orderid : String := ""
  tradeid : String := ""
  direction : Direction := .LONG
  price : ℚ := 0
  volume : ℚ := 0
  deriving DecidableEq, Repr

/-- Base position record (utilities/object.hpp `BasePosition`). -/
structure BasePosition where
  symbol : String := ""
  quantity : ℤ := 0
  avg_cost : ℚ := 0
  cost_value : ℚ := 0
  realized_pnl : ℚ := 0
  mid_price : ℚ := 0
  delta : ℚ := 0
  gamma : ℚ := 0
  theta : ℚ := 0
  vega : ℚ := 0
  multiplier : ℚ := 1
  deriving DecidableEq, Repr

/-- `OptionPositionData` constructor: a base position with multiplier 100
(utilities/object.hpp). -/
def mkOptionPositionData (sym : String) : BasePosition :=
  { symbol := sym, multiplier := 100 }

/-- `UnderlyingPositionData` constructor: symbol "Underlying", delta 1,
multiplier 1 (utilities/object.hpp). -/
def mkUnderlyingPositionData : BasePosition :=
  { symbol := "Underlying", delta := 1, multiplier := 1 }

/-- Typed combo catalog (utilities/constant.hpp `ComboType`). -/
inductive ComboType where
  | CUSTOM
  | SPREAD
  | STRADDLE
  | STRANGLE
  | DIAGONAL_SPREAD
  | RATIO_SPREAD
  | RISK_REVERSAL
  | BUTTERFLY
  | INVERSE_BUTTERFLY
  | IRON_CONDOR
  | IRON_BUTTERFLY
  | CONDOR
  | BOX_SPREAD
  deriving DecidableEq, Repr

/-- Combo position (utilities/object.hpp `ComboPositionData`): a base
position plus a combo type and option legs.  The C++ map key of a combo in
`StrategyHolding.comboPositions` always equals the position's own `symbol`
(both are set from the same string on creation), so combos are modelled as a
plain list. -/
structure ComboPositionData extends BasePosition where
  combo_type : ComboType := .CUSTOM
  legs : List BasePosition := []
  deriving DecidableEq, Repr

/-- `ComboPositionData` constructor: multiplier 100 (utilities/object.hpp). -/
def mkComboPositionData (sym : String) : ComboPositionData :=
  { symbol := sym, multiplier := 100 }

/-- Same-sign / opening branch of PositionEngine::apply_position_change
(core/engine_position.cpp lines 301-311): weighted-average cost, with the
trade quantity `qty` and signed quantity `signed_qty` already extracted. -/
def apply_position_change_open (pos : BasePosition) (price : ℚ) (qty signed_qty : ℤ) :
    BasePosition :=
  let total_qty : ℤ := |pos.quantity| + qty
  let avg : ℚ :=
    if pos.quantity = 0 then round_digits price 2
    else round_digits ((pos.avg_cost * (|pos.quantity| : ℚ) + price * (qty : ℚ)) /
      (total_qty : ℚ)) 2
  let q : ℤ := pos.quantity + signed_qty
  { pos with avg_cost := avg, quantity := q,
             cost_value := round_digits (avg * |(q : ℚ)| * pos.multiplier) 2 }

/-- Opposite-sign / closing branch of PositionEngine::apply_position_change
(core/engine_position.cpp lines 314-334): close `min |prev| qty` at the
stored average cost, book realized P&L, then reopen any residual quantity in
the trade's direction at the trade price. -/
def apply_position_change_close (pos : BasePosition) (price : ℚ) (qty signed_qty : ℤ) :
    BasePosition :=
  let close_qty : ℤ := min |pos.quantity| qty
  let pnl : ℚ :=
    if 0 < pos.quantity then (price - pos.avg_cost) * (close_qty : ℚ)
    else (pos.avg_cost - price) * (close_qty : ℚ)
  let realized : ℚ := pos.realized_pnl + round_digits (pnl * pos.multiplier) 2
  let new_qty : ℤ := |pos.quantity| - close_qty
  let pos1 : BasePosition :=
    if new_qty = 0 then
      { pos with realized_pnl := realized, quantity := 0, avg_cost := 0, cost_value := 0 }
    else
      let q : ℤ := (if 0 < pos.quantity then 1 else -1) * new_qty
      { pos with realized_pnl := realized, quantity := q,
                 cost_value := round_digits (pos.avg_cost * |(q : ℚ)| * pos.multiplier) 2 }
  let extra : ℤ := qty - close_qty
  if 0 < extra then
    let avg : ℚ := round_digits price 2
    let q : ℤ := (if 0 < signed_qty then 1 else -1) * extra
    { pos1 with avg_cost := avg, quantity := q,
                cost_value := round_digits (avg * |(q : ℚ)| * pos.multiplier) 2 }
  else pos1

/-- PositionEngine::apply_position_change, BasePosition overload
(core/engine_position.cpp lines 294-335): weighted-average cost on same-sign
or opening trades; close-first/open-rest netting with realized P&L on
opposite-sign trades. -/
def apply_position_change (pos : BasePosition) (trade : TradeData) : BasePosition :=
  let qty : ℤ := ⌊|trade.volume|⌋
  let signed_qty : ℤ := if trade.direction = .LONG then qty else -qty
  if pos.quantity = 0 ∨ (0 < pos.quantity ∧ 0 < signed_qty) ∨
      (pos.quantity < 0 ∧ signed_qty < 0) then
    apply_position_change_open pos trade.price qty signed_qty
  else
    apply_position_change_close pos trade.price qty signed_qty

/-- PositionEngine::apply_position_change, ComboPositionData overload
(core/engine_position.cpp lines 286-292): shift combo quantity by the signed
volume and recompute cost_value from the unchanged avg_cost. -/
def apply_position_change_combo (pos : ComboPositionData) (trade : TradeData) :
    ComboPositionData :=
  let qty : ℤ := ⌊|trade.volume|⌋
  let signed_qty : ℤ := if trade.direction = .LONG then qty else -qty
  let q : ℤ := pos.quantity + signed_qty
  { pos with quantity := q,
             cost_value := round_digits (pos.avg_cost * |(q : ℚ)| * pos.multiplier) 2 }

theorem round_digits_zero (d : ℤ) : round_digits 0 d = 0 := by
  unfold round_digits
  split
  · rfl
  · norm_num

/-- The conclusion of claim C1, as a predicate on the position and trade:
closing quantity `min |prev| qty` realizes P&L at the stored average cost
(rounded half-up to 2 decimals after scaling by the multiplier); an exact
close clears avg_cost and cost_value; a partial close keeps the direction and
average cost; an over-close reopens the residual in the opposite direction at
the (rounded) trade price. -/
def closing_trade_spec (pos : BasePosition) (t : TradeData) : Prop :=
  (apply_position_change pos t).realized_pnl =
    pos.realized_pnl +
      round_digits ((if 0 < pos.quantity
          then (t.price - pos.avg_cost) * ((min |pos.quantity| ⌊|t.volume|⌋ : ℤ) : ℚ)
          else (pos.avg_cost - t.price) * ((min |pos.quantity| ⌊|t.volume|⌋ : ℤ) : ℚ)) *
        pos.multiplier) 2 ∧
  (⌊|t.volume|⌋ = |pos.quantity| →
    (apply_position_change pos t).quantity = 0 ∧
    (apply_position_change pos t).avg_cost = 0 ∧
    (apply_position_change pos t).cost_value = 0) ∧
  (⌊|t.volume|⌋ < |pos.quantity| →
    (apply_position_change pos t).quantity =
      (if 0 < pos.quantity then 1 else -1) * (|pos.quantity| - ⌊|t.volume|⌋) ∧
    (apply_position_change pos t).avg_cost = pos.avg_cost) ∧
  (|pos.quantity| < ⌊|t.volume|⌋ →
    (apply_position_change pos t).quantity =
      (if 0 < pos.quantity then -1 else 1) * (⌊|t.volume|⌋ - |pos.quantity|) ∧
    (apply_position_change pos t).avg_cost = round_digits t.price 2)

theorem open_cost_invariant (pos : BasePosition) (price : ℚ) (qty signed_qty : ℤ) :
    (apply_position_change_open pos price qty signed_qty).cost_value =
      round_digits ((apply_position_change_open pos price qty signed_qty).avg_cost *
        |((apply_position_change_open pos price qty signed_qty).quantity : ℚ)| *
        (apply_position_change_open pos price qty signed_qty).multiplier) 2 := by
  simp only [apply_position_change_open]

theorem close_cost_invariant (pos : BasePosition) (price : ℚ) (qty signed_qty : ℤ) :
    (apply_position_change_close pos price qty signed_qty).cost_value =
      round_digits ((apply_position_change_close pos price qty signed_qty).avg_cost *
        |((apply_position_change_close pos price qty signed_qty).quantity : ℚ)| *
        (apply_position_change_close pos price qty signed_qty).multiplier) 2 := by
  simp only [apply_position_change_close]
  split_ifs <;> simp [round_digits_zero]

theorem close_realized_pnl_eq (pos : BasePosition) (price : ℚ) (qty signed_qty : ℤ) :
    (apply_position_change_close pos price qty signed_qty).realized_pnl =
      pos.realized_pnl + round_digits ((if 0 < pos.quantity
          then (price - pos.avg_cost) * ((min |pos.quantity| qty : ℤ) : ℚ)
          else (pos.avg_cost - price) * ((min |pos.quantity| qty : ℤ) : ℚ)) *
        pos.multiplier) 2 := by
  simp only [apply_position_change_close]
  split_ifs <;> rfl

theorem close_exact_spec (pos : BasePosition) (price : ℚ) (qty signed_qty : ℤ)
    (hne : pos.quantity ≠ 0) (h : qty = |pos.quantity|) :
    (apply_position_change_close pos price qty signed_qty).quantity = 0 ∧
    (apply_position_change_close pos price qty signed_qty).avg_cost = 0 ∧
    (apply_position_change_close pos price qty signed_qty).cost_value = 0 := by
  simp only [apply_position_change_close]
  split_ifs <;> simp_all

theorem close_partial_spec (pos : BasePosition) (price : ℚ) (qty signed_qty : ℤ)
    (h1 : 0 ≤ qty) (h2 : qty < |pos.quantity|) :
    (apply_position_change_close pos price qty signed_qty).quantity =
      (if 0 < pos.quantity then 1 else -1) * (|pos.quantity| - qty) ∧
    (apply_position_change_close pos price qty signed_qty).avg_cost = pos.avg_cost := by
  simp only [apply_position_change_close]
  split_ifs <;> simp_all <;> omega

theorem close_over_spec (pos : BasePosition) (price : ℚ) (qty signed_qty : ℤ)
    (hne : pos.quantity ≠ 0) (h : |pos.quantity| < qty)
    (hsgn : 0 < signed_qty ↔ pos.quantity < 0) :
    (apply_position_change_close pos price qty signed_qty).quantity =
      (if 0 < pos.quantity then -1 else 1) * (qty - |pos.quantity|) ∧
    (apply_position_change_close pos price qty signed_qty).avg_cost =
      round_digits price 2 := by
  simp only [apply_position_change_close]
  split_ifs <;> simp_all <;> omega

/-- C1: a trade of opposite sign against a nonzero position closes
`min |prev| qty` at the stored average cost, books the rounded realized P&L,
clears cost fields on an exact close, and reopens any residual quantity in
the opposite direction at the trade's (rounded) price. -/
theorem C1_apply_position_change_closing (pos : BasePosition) (t : TradeData)
    (hq : 1 ≤ ⌊|t.volume|⌋)
    (hopp : (0 < pos.quantity ∧ t.direction = .SHORT) ∨
            (pos.quantity < 0 ∧ t.direction = .LONG)) :
    closing_trade_spec pos t := by
  obtain ⟨hp, hd⟩ | ⟨hp, hd⟩ := hopp
  · have hkey : apply_position_change pos t =
        apply_position_change_close pos t.price ⌊|t.volume|⌋ (-⌊|t.volume|⌋) := by
      unfold apply_position_change
      rw [hd]
      simp only [reduceCtorEq, reduceIte]
      rw [if_neg (by omega)]
    unfold closing_trade_spec
    rw [hkey]
    refine ⟨close_realized_pnl_eq pos t.price _ _, fun h => ?_, fun h => ?_, fun h => ?_⟩
    · exact close_exact_spec pos t.price _ _ (by omega) h
    · exact close_partial_spec pos t.price _ _ (by omega) h
    · exact close_over_spec pos t.price _ _ (by omega) h (by constructor <;> omega)
  · have hkey : apply_position_change pos t =
        apply_position_change_close pos t.price ⌊|t.volume|⌋ ⌊|t.volume|⌋ := by
      unfold apply_position_change
      rw [hd]
      simp only [reduceIte]
      rw [if_neg (by omega)]
    unfold closing_trade_spec
    rw [hkey]
    refine ⟨close_realized_pnl_eq pos t.price _ _, fun h => ?_, fun h => ?_, fun h => ?_⟩
    · exact close_exact_spec pos t.price _ _ (by omega) h
    · exact close_partial_spec pos t.price _ _ (by omega) h
    · exact close_over_spec pos t.price _ _ (by omega) h (by constructor <;> omega)

/-- Concrete long position closed by a short trade, used as the C1 witness. -/
def posC1 : BasePosition :=
  { symbol := "SPXW-20260302-C-2800-100", quantity := 2, avg_cost := 10,
    cost_value := 2000, realized_pnl := 5, multiplier := 100 }

/-- Concrete closing trade for the C1 witness. -/
def tradeC1 : TradeData :=
  { symbol := "SPXW-20260302-C-2800-100", direction := .SHORT, price := 11, volume := 1 }

/-- C1 witness: the closing theorem applied to a concrete position and trade. -/
theorem C1_apply_position_change_closing_witness :
    (1 ≤ ⌊|tradeC1.volume|⌋ ∧
      ((0 < posC1.quantity ∧ tradeC1.direction = .SHORT) ∨
        (posC1.quantity < 0 ∧ tradeC1.direction = .LONG))) ∧
    closing_trade_spec posC1 tradeC1 :=
  ⟨⟨by decide, Or.inl ⟨by decide, rfl⟩⟩,
    C1_apply_position_change_closing posC1 tradeC1 (by decide) (Or.inl ⟨by decide, rfl⟩)⟩

/-- C7: after either overload of apply_position_change, the stored cost_value
equals the half-up rounding of `avg_cost * |quantity| * multiplier` to two
decimals, with avg_cost the value stored after the call. -/
theorem C7_cost_value_invariant :
    (∀ (pos : BasePosition) (t : TradeData),
      (apply_position_change pos t).cost_value =
        round_digits ((apply_position_change pos t).avg_cost *
          |((apply_position_change pos t).quantity : ℚ)| *
          (apply_position_change pos t).multiplier) 2) ∧
    (∀ (pos : ComboPositionData) (t : TradeData),
      (apply_position_change_combo pos t).cost_value =
        round_digits ((apply_position_change_combo pos t).avg_cost *
          |((apply_position_change_combo pos t).quantity : ℚ)| *
          (apply_position_change_combo pos t).multiplier) 2) := by
  refine ⟨fun pos t => ?_, fun pos t => ?_⟩
  · simp only [apply_position_change]
    split <;> split
    · exact open_cost_invariant _ _ _ _
    · exact close_cost_invariant _ _ _ _
    · exact open_cost_invariant _ _ _ _
    · exact close_cost_invariant _ _ _ _
  · simp only [apply_position_change_combo]

/-! ### Strategy template timer decimation (strategy/template.cpp) -/

/-- The timer-related state of OptionStrategyTemplate (strategy/template.hpp):
lifecycle flags plus the decimation counter.  Defaults: not started, no
error, `timer_trigger = 1`, `timer_cnt = 0`. -/
structure StrategyTimerState where
  started : Bool := false
  error : Bool := false
  timer_trigger : ℤ := 1
  timer_cnt : ℤ := 0
  deriving DecidableEq, Repr

/-- OptionStrategyTemplate::on_timer (strategy/template.cpp lines 46-55):
returns the new state and whether `on_timer_logic` was invoked. -/
def on_timer (s : StrategyTimerState) : StrategyTimerState × Bool :=
  if ¬s.started ∨ s.error then (s, false)
  else
    let c : ℤ := s.timer_cnt + 1
    if s.timer_trigger ≤ c then ({ s with timer_cnt := 0 }, true)
    else ({ s with timer_cnt := c }, false)

/-- State after `k` Timer events have been delivered to the template. -/
def timer_iter (s : StrategyTimerState) : ℕ → StrategyTimerState
  | 0 => s
  | k + 1 => (on_timer (timer_iter s k)).1

theorem on_timer_active (s : StrategyTimerState)
    (hs : s.started = true) (he : s.error = false) :
    on_timer s =
      if s.timer_trigger ≤ s.timer_cnt + 1 then ({ s with timer_cnt := 0 }, true)
      else ({ s with timer_cnt := s.timer_cnt + 1 }, false) := by
  unfold on_timer
  rw [if_neg]
  simp [hs, he]

theorem emod_succ_eq_zero (a N : ℤ) (h : a % N + 1 = N) : (a + 1) % N = 0 := by
  have h2 := Int.emod_add_ediv a N
  have h3 : a + 1 = N * (1 + a / N) := by
    have : a % N = N - 1 := by omega
    nlinarith [this]
  rw [h3]
  exact Int.mul_emod_right _ _

theorem emod_succ_of_lt (a N : ℤ) (hN : 0 < N) (h : a % N + 1 < N) :
    (a + 1) % N = a % N + 1 := by
  have h2 := Int.emod_add_ediv a N
  have h3 : a + 1 = (a % N + 1) + N * (a / N) := by linarith
  rw [h3, Int.add_mul_emod_self_left]
  exact Int.emod_eq_of_lt (by have := Int.emod_nonneg a (by omega : N ≠ 0); omega) h

theorem timer_iter_invariant (s : StrategyTimerState)
    (hs : s.started = true) (he : s.error = false) (ht : 1 ≤ s.timer_trigger)
    (hc : s.timer_cnt = 0) (k : ℕ) :
    (timer_iter s k).started = true ∧ (timer_iter s k).error = false ∧
    (timer_iter s k).timer_trigger = s.timer_trigger ∧
    (timer_iter s k).timer_cnt = (k : ℤ) % s.timer_trigger := by
  induction k with
  | zero =>
    simpa [timer_iter, hs, he] using hc
  | succ k ih =>
    obtain ⟨ih1, ih2, ih3, ih4⟩ := ih
    have hmod_nonneg : 0 ≤ (k : ℤ) % s.timer_trigger :=
      Int.emod_nonneg _ (by omega)
    have hmod_lt : (k : ℤ) % s.timer_trigger < s.timer_trigger :=
      Int.emod_lt_of_pos _ (by omega)
    rw [timer_iter, on_timer_active _ ih1 ih2, ih3, ih4]
    split
    · refine ⟨ih1, ih2, rfl, ?_⟩
      show (0 : ℤ) = ((k : ℕ) + 1 : ℕ) % s.timer_trigger
      push_cast
      rw [emod_succ_eq_zero _ _ (by omega)]
    · refine ⟨ih1, ih2, rfl, ?_⟩
      show (k : ℤ) % s.timer_trigger + 1 = ((k : ℕ) + 1 : ℕ) % s.timer_trigger
      push_cast
      rw [emod_succ_of_lt _ _ (by omega) (by omega)]

/-- C9 (amended): a started, non-errored strategy with `timer_trigger = N ≥ 1`
and a fresh counter invokes `on_timer_logic` exactly on the N-th, 2N-th, …
Timer events, i.e. event number `k+1` fires iff `N` divides `k+1`; with the
default `N = 1` this is every Timer event starting with the first. -/
theorem C9_timer_decimation (s : StrategyTimerState)
    (hs : s.started = true) (he : s.error = false) (ht : 1 ≤ s.timer_trigger)
    (hc : s.timer_cnt = 0) (k : ℕ) :
    (on_timer (timer_iter s k)).2 = true ↔ ((k : ℤ) + 1) % s.timer_trigger = 0 := by
  obtain ⟨h1, h2, h3, h4⟩ := timer_iter_invariant s hs he ht hc k
  have hmod_nonneg : 0 ≤ (k : ℤ) % s.timer_trigger :=
    Int.emod_nonneg _ (by omega)
  have hmod_lt : (k : ℤ) % s.timer_trigger < s.timer_trigger :=
    Int.emod_lt_of_pos _ (by omega)
  rw [on_timer_active _ h1 h2, h3, h4]
  constructor
  · intro h
    split at h
    · exact emod_succ_eq_zero _ _ (by omega)
    · simp at h
  · intro h
    split
    · rfl
    · exfalso
      rw [emod_succ_of_lt _ _ (by omega) (by omega)] at h
      omega

/-- C9 counterexample: with `timer_trigger = 2` the very first Timer event
does not invoke `on_timer_logic`, contradicting the claim that the
decimation starts with the first Timer event received. -/
theorem C9_counterexample_first_event :
    (on_timer { started := true, error := false, timer_trigger := 2, timer_cnt := 0 }).2
      = false := by
  decide

/-- Concrete fresh strategy-timer state with the default trigger, for the C9
witness. -/
def stateC9 : StrategyTimerState :=
  { started := true, error := false, timer_trigger := 1, timer_cnt := 0 }

/-- C9 witness: the amended theorem at `timer_trigger = 1`, first event. -/
theorem C9_timer_decimation_witness :
    (stateC9.started = true ∧ stateC9.error = false ∧ 1 ≤ stateC9.timer_trigger ∧
      stateC9.timer_cnt = 0) ∧
    ((on_timer (timer_iter stateC9 0)).2 = true ↔
      (((0 : ℕ) : ℤ) + 1) % stateC9.timer_trigger = 0) :=
  ⟨⟨rfl, rfl, by decide, rfl⟩,
    C9_timer_decimation stateC9 rfl rfl (by decide) rfl 0⟩

/-! ### Backtest Timer dispatch order (runtime/backtest/engine_event.cpp) -/

/-- Which collaborating engines are wired up when the backtest EventEngine
dispatches a Timer event (runtime/backtest/engine_event.cpp lines 75-109).
`has_strategy` is `option_strategy_engine() != nullptr` together with
`get_strategy() != nullptr`; `has_out_params` is the non-null check on the
out-parameter vectors (always true from put_event). -/
structure BacktestTimerEnv where
  has_strategy : Bool := true
  has_position_engine : Bool := true
  has_portfolio : Bool := true
  has_hedge_engine : Bool := true
  has_out_params : Bool := true
  deriving DecidableEq, Repr

/-- The three Timer handlers of the backtest dispatch chain. -/
inductive TimerHandler where
  | strategy_on_timer
  | position_metrics_rollup
  | hedge_controller
  deriving DecidableEq, Repr

/-- EventEngine::dispatch_timer of the backtest runtime, as the ordered trace
of handler invocations (runtime/backtest/engine_event.cpp lines 75-109): the
strategy's on_timer is called first, then the position-engine metrics update,
then the hedge controller. -/
def dispatch_timer_trace (env : BacktestTimerEnv) : List TimerHandler :=
  if ¬env.has_strategy then []
  else
    [TimerHandler.strategy_on_timer]
      ++ (if env.has_position_engine ∧ env.has_portfolio
          then [TimerHandler.position_metrics_rollup] else [])
      ++ (if env.has_hedge_engine ∧ env.has_out_params
          then [TimerHandler.hedge_controller] else [])

/-- C2 counterexample: with every engine wired up, the backtest Timer
dispatch does not run metrics first, hedge second and strategy last; the
strategy's on_timer runs first. -/
theorem C2_counterexample_dispatch_order :
    dispatch_timer_trace {} ≠
      [TimerHandler.position_metrics_rollup, TimerHandler.hedge_controller,
        TimerHandler.strategy_on_timer] := by
  decide

/-- C2 (amended): in the backtest event engine, a Timer event with all
handlers wired runs the strategy's on_timer first, then the position-engine
metrics rollup, then the hedge controller. -/
theorem C2_backtest_timer_order (env : BacktestTimerEnv)
    (h1 : env.has_strategy = true) (h2 : env.has_position_engine = true)
    (h3 : env.has_portfolio = true) (h4 : env.has_hedge_engine = true)
    (h5 : env.has_out_params = true) :
    dispatch_timer_trace env =
      [TimerHandler.strategy_on_timer, TimerHandler.position_metrics_rollup,
        TimerHandler.hedge_controller] := by
  simp [dispatch_timer_trace, h1, h2, h3, h4, h5]

/-- C2 witness: the amended dispatch-order theorem at the default (fully
wired) environment. -/
theorem C2_backtest_timer_order_witness :
    ({} : BacktestTimerEnv).has_strategy = true ∧
    dispatch_timer_trace {} =
      [TimerHandler.strategy_on_timer, TimerHandler.position_metrics_rollup,
        TimerHandler.hedge_controller] :=
  ⟨rfl, C2_backtest_timer_order {} rfl rfl rfl rfl rfl⟩

/-! ### Order requests and the hedge controller (core/engine_hedge.cpp) -/

/-- One leg of a combo order (utilities/object.hpp `Leg`), restricted to the
fields the backtest fill model reads.  `ratioVal` models the source field
`ratio`. -/
structure Leg where
  symbol : Option String := none
  ratioVal : ℤ := 0
  direction : Direction := .LONG
  deriving DecidableEq, Repr

/-- Order intent (utilities/object.hpp `OrderRequest`), restricted to the
fields the backtest fill model and the hedge controller read/write. -/
structure OrderRequest where
  symbol : String := ""
  direction : Direction := .LONG
  type : OrderType := .LIMIT
  volume : ℚ := 0
  price : ℚ := 0
  reference : String := ""
  is_combo : Bool := false
  legs : Option (List Leg) := none
  deriving DecidableEq, Repr

/-- Cancel intent (utilities/object.hpp `CancelRequest`), restricted to the
identifying fields. -/
structure CancelRequest where
  orderid : String := ""
  symbol : String := ""
  deriving DecidableEq, Repr

/-- Order state (utilities/object.hpp `OrderData`), restricted to the fields
the hedge controller reads (`reference`) and the identifiers used by
`create_cancel_request`. -/
structure OrderData where
  orderid : String := ""
  symbol : String := ""
  reference : String := ""
  deriving DecidableEq, Repr

/-- Substring test on character lists: `pat` occurs somewhere in the text. -/
def contains_sub (pat : List Char) : List Char → Bool
  | [] => pat.isEmpty
  | c :: rest => pat.isPrefixOf (c :: rest) || contains_sub pat rest

/-- `s.find("Hedge") != npos`: the string contains the substring "Hedge"
(the `APP_NAME` constant of core/engine_hedge.cpp). -/
def contains_hedge (s : String) : Bool :=
  contains_sub "Hedge".data s.data

/-- Per-strategy hedge configuration (core/engine_hedge.hpp `HedgeConfig`). -/
structure HedgeConfig where
  strategy_name : String := ""
  timer_trigger : ℤ := 5
  delta_target : ℤ := 0
  delta_range : ℤ := 0
  deriving DecidableEq, Repr

/-- The inputs core/engine_hedge.hpp `HedgeParams` provides to one hedging
run: the strategy's active orders (its entry in the OMS active-order map,
each orderid already resolved through `get_order`), the holding's summed
delta, and the portfolio underlying plus contract availability. -/
structure HedgeParams where
  active_orders : List OrderData := []
  has_underlying : Bool := true
  summary_delta : ℚ := 0
  theo_delta : ℚ := 1
  underlying_symbol : String := ""
  underlying_qty : ℤ := 0
  has_contract : Bool := true
  deriving DecidableEq, Repr

/-- HedgeEngine::check_strategy_orders_finished (core/engine_hedge.cpp lines
160-177): true iff no active order of the strategy carries "Hedge" in its
reference. -/
def check_strategy_orders_finished (params : HedgeParams) : Bool :=
  params.active_orders.all (fun o => !contains_hedge o.reference)

/-- HedgeEngine::cancel_strategy_orders (core/engine_hedge.cpp lines
179-196): a cancel request for every active order whose reference contains
"Hedge". -/
def cancel_strategy_orders (params : HedgeParams) : List CancelRequest :=
  (params.active_orders.filter (fun o => contains_hedge o.reference)).map
    (fun o => { orderid := o.orderid, symbol := o.symbol })

/-- HedgeEngine::compute_hedge_plan (core/engine_hedge.cpp lines 60-101):
no plan inside the delta band; otherwise hedge volume, direction and the
quantity available to close. -/
def compute_hedge_plan (config : HedgeConfig) (params : HedgeParams) :
    Option (String × Direction × ℚ × ℚ) :=
  if ¬params.has_underlying then none
  else
    let total_delta : ℚ := params.summary_delta
    let delta_max : ℚ := (config.delta_target : ℚ) + (config.delta_range : ℚ)
    let delta_min : ℚ := (config.delta_target : ℚ) - (config.delta_range : ℚ)
    if delta_min ≤ total_delta ∧ total_delta ≤ delta_max then none
    else
      let delta_to_hedge : ℚ := (config.delta_target : ℚ) - total_delta
      let hedge_volume : ℚ :=
        delta_to_hedge / (if params.theo_delta ≠ 0 then params.theo_delta else 1)
      if ¬params.has_contract ∨ |hedge_volume| < 1 then none
      else if 0 < hedge_volume then
        some (params.underlying_symbol, .LONG,
          if params.underlying_qty < 0 then ((|params.underlying_qty| : ℤ) : ℚ) else 0,
          |hedge_volume|)
      else
        some (params.underlying_symbol, .SHORT,
          if 0 < params.underlying_qty then (params.underlying_qty : ℚ) else 0,
          |hedge_volume|)

/-- HedgeEngine::submit_hedge_order (core/engine_hedge.cpp lines 124-158):
a MARKET order tagged with reference `Hedge_<strategy>`, guarded by contract
availability. -/
def submit_hedge_order (strategy_name symbol : String) (direction : Direction)
    (volume : ℚ) (params : HedgeParams) : List OrderRequest :=
  if ¬params.has_contract then []
  else [{ symbol := symbol, direction := direction, type := .MARKET,
          volume := volume, price := 0, reference := "Hedge_" ++ strategy_name }]

/-- HedgeEngine::execute_hedge_orders (core/engine_hedge.cpp lines 103-122):
first close up to `available`, then open the remainder. -/
def execute_hedge_orders (strategy_name symbol : String) (direction : Direction)
    (available order_volume : ℚ) (params : HedgeParams) : List OrderRequest :=
  let close_part : List OrderRequest :=
    if 0 < available then
      submit_hedge_order strategy_name symbol direction (min available order_volume) params
    else []
  let remaining : ℚ :=
    order_volume - (if 0 < available then min available order_volume else 0)
  close_part ++
    (if 0 < remaining then
      submit_hedge_order strategy_name symbol direction remaining params
    else [])

/-- HedgeEngine::run_strategy_hedging_with_params (core/engine_hedge.cpp
lines 43-58), returning the emitted (new orders, cancels). -/
def run_strategy_hedging_with_params (strategy_name : String) (config : HedgeConfig)
    (params : HedgeParams) : List OrderRequest × List CancelRequest :=
  if check_strategy_orders_finished params = false then
    ([], cancel_strategy_orders params)
  else
    match compute_hedge_plan config params with
    | none => ([], [])
    | some (symbol, direction, available, order_volume) =>
        (execute_hedge_orders strategy_name symbol direction available order_volume params, [])

/-- C5: if any active order of the strategy has "Hedge" in its reference,
the hedge controller emits zero new orders this tick and only cancels for
exactly the hedge-referenced active orders. -/
theorem C5_hedge_suppression (strategy_name : String) (config : HedgeConfig)
    (params : HedgeParams)
    (h : ∃ o ∈ params.active_orders, contains_hedge o.reference = true) :
    (run_strategy_hedging_with_params strategy_name config params).1 = [] ∧
    (run_strategy_hedging_with_params strategy_name config params).2 =
      (params.active_orders.filter (fun o => contains_hedge o.reference)).map
        (fun o => ({ orderid := o.orderid, symbol := o.symbol } : CancelRequest)) := by
  have hc : check_strategy_orders_finished params = false := by
    obtain ⟨o, ho, hh⟩ := h
    simp only [check_strategy_orders_finished, List.all_eq_false]
    exact ⟨o, ho, by simp [hh]⟩
  unfold run_strategy_hedging_with_params
  rw [if_pos hc]
  exact ⟨rfl, rfl⟩

/-- Concrete hedge-controller inputs with one outstanding hedge order, for
the C5 witness. -/
def paramsC5 : HedgeParams :=
  { active_orders := [{ orderid := "o1", symbol := "SPX", reference := "Hedge_s1" }],
    summary_delta := 57, theo_delta := 1, underlying_symbol := "SPX" }

/-- C5 witness: the suppression theorem at a concrete strategy with one
outstanding hedge order. -/
theorem C5_hedge_suppression_witness :
    (∃ o ∈ paramsC5.active_orders, contains_hedge o.reference = true) ∧
    ((run_strategy_hedging_with_params "s1" {} paramsC5).1 = [] ∧
      (run_strategy_hedging_with_params "s1" {} paramsC5).2 =
        (paramsC5.active_orders.filter (fun o => contains_hedge o.reference)).map
          (fun o => ({ orderid := o.orderid, symbol := o.symbol } : CancelRequest))) :=
  ⟨⟨{ orderid := "o1", symbol := "SPX", reference := "Hedge_s1" }, by decide, by decide⟩,
    C5_hedge_suppression "s1" {} paramsC5
      ⟨{ orderid := "o1", symbol := "SPX", reference := "Hedge_s1" }, by decide, by decide⟩⟩

/-! ### Backtest fill model (runtime/backtest/engine_backtest.cpp) -/

/-- Outcome of BacktestEngine::execute_order_impl for one queued order: the
fill decision, the (possibly slipped) fill price, and the resulting order
status and traded volume. -/
structure ExecOutcome where
  filled : Bool := false
  fill_price : ℚ := 0
  status : Status := .SUBMITTING
  traded : ℚ := 0
  deriving DecidableEq, Repr

/-- Combo leg aggregation of execute_order_impl: sum each leg's bid and ask
weighted by `|ratio|`; `none` when a leg has no symbol or no BBO at all
(engine_backtest.cpp lines 111-128 and 158-175). -/
def combo_totals (bbo : String → ℚ × ℚ) : List Leg → Option (ℚ × ℚ)
  | [] => some (0, 0)
  | leg :: rest =>
    match leg.symbol with
    | none => none
    | some s =>
      let bid : ℚ := (bbo s).1
      let ask : ℚ := (bbo s).2
      if bid ≤ 0 ∧ ask ≤ 0 then none
      else
        match combo_totals bbo rest with
        | none => none
        | some (tb, ta) =>
          some (tb + bid * ((|leg.ratioVal| : ℤ) : ℚ), ta + ask * ((|leg.ratioVal| : ℤ) : ℚ))

/-- `req.is_combo && req.legs && !req.legs->empty()`. -/
def combo_path (req : OrderRequest) : Bool :=
  req.is_combo && (match req.legs with
    | some legs => !legs.isEmpty
    | none => false)

/-- The `(fill_price, filled)` pair computed by execute_order_impl
(engine_backtest.cpp lines 99-204).  A LIMIT order with `price > 0` uses the
strict crossing model with no slippage; everything else (including a LIMIT
order with non-positive price) takes the MARKET path with multiplicative
slippage. -/
def execute_fill (bbo : String → ℚ × ℚ) (slippage_bps : ℚ) (req : OrderRequest) :
    ℚ × Bool :=
  let limit : ℚ := req.price
  if req.type = OrderType.LIMIT ∧ 0 < limit then
    if combo_path req then
      match combo_totals bbo (req.legs.getD []) with
      | none => (0, false)
      | some (total_bid, total_ask) =>
        if req.direction = .LONG then
          if total_ask ≤ limit ∧ 0 < total_ask then (total_ask, true) else (0, false)
        else
          if limit ≤ total_bid ∧ 0 < total_bid then (total_bid, true) else (0, false)
    else
      let bid : ℚ := (bbo req.symbol).1
      let ask : ℚ := (bbo req.symbol).2
      if req.direction = .LONG then
        if ask ≤ limit ∧ 0 < ask then (ask, true) else (0, false)
      else
        if limit ≤ bid ∧ 0 < bid then (bid, true) else (0, false)
  else
    let base : ℚ × Bool :=
      if combo_path req then
        match combo_totals bbo (req.legs.getD []) with
        | none => (0, false)
        | some (total_bid, total_ask) =>
          if req.direction = .LONG then (total_ask, if 0 < total_ask then true else false)
          else (total_bid, if 0 < total_bid then true else false)
      else
        let bid : ℚ := (bbo req.symbol).1
        let ask : ℚ := (bbo req.symbol).2
        if req.direction = .LONG then (ask, if 0 < ask then true else false)
        else (bid, if 0 < bid then true else false)
    if base.2 = true ∧ 0 < slippage_bps ∧ 0 < base.1 then
      let mult : ℚ := 1 + slippage_bps / 10000
      (if req.direction = .LONG then base.1 * mult else base.1 * (2 - mult), true)
    else base

/-- BacktestEngine::execute_order_impl, as the resulting order outcome
(engine_backtest.cpp lines 206-213): ALLTRADED with `traded = volume` on a
fill, otherwise NOTTRADED with `traded = 0`. -/
def execute_order_impl (bbo : String → ℚ × ℚ) (slippage_bps : ℚ) (req : OrderRequest) :
    ExecOutcome :=
  let pf := execute_fill bbo slippage_bps req
  if pf.2 = true then
    { filled := true, fill_price := pf.1, status := .ALLTRADED, traded := req.volume }
  else
    { filled := false, fill_price := pf.1, status := .NOTTRADED, traded := 0 }

/-- The conclusion of claim C3 for a single-leg LIMIT order: a long order
fills iff `0 < ask` and `ask <= L`, at price exactly `ask` (no slippage); a
short order fills iff `0 < bid` and `L <= bid`, at price exactly `bid`; an
unfilled order ends NOTTRADED with zero traded volume. -/
def limit_crossing_spec (bbo : String → ℚ × ℚ) (slippage_bps : ℚ)
    (req : OrderRequest) : Prop :=
  (req.direction = .LONG →
    (((execute_order_impl bbo slippage_bps req).filled = true) ↔
      (0 < (bbo req.symbol).2 ∧ (bbo req.symbol).2 ≤ req.price)) ∧
    ((execute_order_impl bbo slippage_bps req).filled = true →
      (execute_order_impl bbo slippage_bps req).fill_price = (bbo req.symbol).2)) ∧
  (req.direction = .SHORT →
    (((execute_order_impl bbo slippage_bps req).filled = true) ↔
      (0 < (bbo req.symbol).1 ∧ req.price ≤ (bbo req.symbol).1)) ∧
    ((execute_order_impl bbo slippage_bps req).filled = true →
      (execute_order_impl bbo slippage_bps req).fill_price = (bbo req.symbol).1)) ∧
  ((execute_order_impl bbo slippage_bps req).filled = false →
    (execute_order_impl bbo slippage_bps req).status = .NOTTRADED ∧
    (execute_order_impl bbo slippage_bps req).traded = 0)

/-- C3 (amended): for every queued single-leg backtest LIMIT order with
positive limit price L, a long order fills iff `ask > 0 ∧ L ≥ ask` at price
ask, a short order fills iff `bid > 0 ∧ L ≤ bid` at price bid, an unfilled
order becomes NOTTRADED with traded 0, and no slippage is applied. -/
theorem C3_limit_crossing (bbo : String → ℚ × ℚ) (slippage_bps : ℚ)
    (req : OrderRequest) (h1 : req.type = .LIMIT) (h2 : 0 < req.price)
    (h3 : req.is_combo = false) :
    limit_crossing_spec bbo slippage_bps req := by
  have hcp : combo_path req = false := by
    simp [combo_path, h3]
  have hfill : execute_fill bbo slippage_bps req =
      (if req.direction = .LONG then
        (if (bbo req.symbol).2 ≤ req.price ∧ 0 < (bbo req.symbol).2
          then ((bbo req.symbol).2, true) else (0, false))
      else
        (if req.price ≤ (bbo req.symbol).1 ∧ 0 < (bbo req.symbol).1
          then ((bbo req.symbol).1, true) else (0, false))) := by
    unfold execute_fill
    rw [if_pos ⟨h1, h2⟩, hcp]
    simp only [Bool.false_eq_true, if_false]
  unfold limit_crossing_spec execute_order_impl
  rw [hfill]
  cases hd : req.direction
  · simp only [reduceCtorEq, reduceIte]
    by_cases hc : (bbo req.symbol).2 ≤ req.price ∧ 0 < (bbo req.symbol).2
    · rw [if_pos hc]
      refine ⟨fun _ => ⟨?_, fun _ => by simp⟩, fun hS => by simp at hS, fun hf => ?_⟩
      · simp only [if_pos rfl]
        exact iff_of_true rfl ⟨hc.2, hc.1⟩
      · simp at hf
    · rw [if_neg hc]
      refine ⟨fun _ => ⟨?_, fun hf => by simp at hf⟩, fun hS => by simp at hS,
        fun _ => by simp⟩
      simp only [Bool.false_eq_true, if_false]
      exact iff_of_false (by simp) (fun hx => hc ⟨hx.2, hx.1⟩)
  · simp only [reduceCtorEq, reduceIte]
    by_cases hc : req.price ≤ (bbo req.symbol).1 ∧ 0 < (bbo req.symbol).1
    · rw [if_pos hc]
      refine ⟨fun hL => by simp at hL, fun _ => ⟨?_, fun _ => by simp⟩, fun hf => ?_⟩
      · simp only [if_pos rfl]
        exact iff_of_true rfl ⟨hc.2, hc.1⟩
      · simp at hf
    · rw [if_neg hc]
      refine ⟨fun hL => by simp at hL, fun _ => ⟨?_, fun hf => by simp at hf⟩,
        fun _ => by simp⟩
      simp only [Bool.false_eq_true, if_false]
      exact iff_of_false (by simp) (fun hx => hc ⟨hx.2, hx.1⟩)

/-- Concrete market with bid 1 and ask 1.1 for every symbol, for C3. -/
def bboC3 : String → ℚ × ℚ := fun _ => (1, 11/10)

/-- Concrete LIMIT order with limit price 0, for the C3 counterexample. -/
def reqC3zero : OrderRequest :=
  { symbol := "X", direction := .LONG, type := .LIMIT, volume := 1, price := 0 }

/-- C3 counterexample: a LIMIT long order with limit price 0 against
ask = 1.1 fills (via the MARKET path) even though `L ≥ ask` fails, and with
100 bps slippage its fill price is 1.111, not the ask - so the claim's fill
condition and its no-slippage statement are both violated for a LIMIT order
with non-positive price. -/
theorem C3_counterexample_zero_price_limit :
    reqC3zero.type = .LIMIT ∧
    (execute_order_impl bboC3 100 reqC3zero).filled = true ∧
    ¬((bboC3 reqC3zero.symbol).2 ≤ reqC3zero.price) ∧
    (execute_order_impl bboC3 100 reqC3zero).fill_price = 1111/1000 ∧
    (execute_order_impl bboC3 100 reqC3zero).fill_price ≠ (bboC3 reqC3zero.symbol).2 := by
  refine ⟨rfl, ?_, ?_, ?_, ?_⟩ <;>
    norm_num [execute_order_impl, execute_fill, combo_path, bboC3, reqC3zero]

/-- Concrete crossing LIMIT order for the C3 witness. -/
def reqC3cross : OrderRequest :=
  { symbol := "X", direction := .LONG, type := .LIMIT, volume := 2, price := 3/2 }

/-- C3 witness: the amended crossing theorem at a concrete order that
crosses the ask. -/
theorem C3_limit_crossing_witness :
    (reqC3cross.type = .LIMIT ∧ 0 < reqC3cross.price ∧ reqC3cross.is_combo = false) ∧
    limit_crossing_spec bboC3 100 reqC3cross :=
  ⟨⟨rfl, by norm_num [reqC3cross], rfl⟩,
    C3_limit_crossing bboC3 100 reqC3cross rfl (by norm_num [reqC3cross]) rfl⟩

/-! ### StrategyHolding serialization (core/engine_position.cpp) -/

/-- `combo_type_to_enum_name` (core/engine_position.cpp lines 71-101). -/
def combo_type_to_enum_name : ComboType → String
  | .CUSTOM => "CUSTOM"
  | .SPREAD => "SPREAD"
  | .STRADDLE => "STRADDLE"
  | .STRANGLE => "STRANGLE"
  | .DIAGONAL_SPREAD => "DIAGONAL_SPREAD"
  | .RATIO_SPREAD => "RATIO_SPREAD"
  | .RISK_REVERSAL => "RISK_REVERSAL"
  | .BUTTERFLY => "BUTTERFLY"
  | .INVERSE_BUTTERFLY => "INVERSE_BUTTERFLY"
  | .IRON_CONDOR => "IRON_CONDOR"
  | .IRON_BUTTERFLY => "IRON_BUTTERFLY"
  | .CONDOR => "CONDOR"
  | .BOX_SPREAD => "BOX_SPREAD"

/-- `combo_type_from_string` (core/engine_position.cpp lines 27-68); unknown
strings fall back to CUSTOM. -/
def combo_type_from_string (s : String) : ComboType :=
  if s = "CUSTOM" then .CUSTOM
  else if s = "SPREAD" then .SPREAD
  else if s = "STRADDLE" then .STRADDLE
  else if s = "STRANGLE" then .STRANGLE
  else if s = "DIAGONAL_SPREAD" then .DIAGONAL_SPREAD
  else if s = "RATIO_SPREAD" then .RATIO_SPREAD
  else if s = "RISK_REVERSAL" then .RISK_REVERSAL
  else if s = "BUTTERFLY" then .BUTTERFLY
  else if s = "INVERSE_BUTTERFLY" then .INVERSE_BUTTERFLY
  else if s = "IRON_CONDOR" then .IRON_CONDOR
  else if s = "IRON_BUTTERFLY" then .IRON_BUTTERFLY
  else if s = "CONDOR" then .CONDOR
  else if s = "BOX_SPREAD" then .BOX_SPREAD
  else .CUSTOM

/-- Wire form of a base position (otrader_engine.pb `BasePositionMsg`):
ten fields; note that `multiplier` is NOT part of the message. -/
structure BasePositionMsg where
  symbol : String := ""
  quantity : ℤ := 0
  avg_cost : ℚ := 0
  cost_value : ℚ := 0
  realized_pnl : ℚ := 0
  mid_price : ℚ := 0
  delta : ℚ := 0
  gamma : ℚ := 0
  theta : ℚ := 0
  vega : ℚ := 0
  deriving DecidableEq, Repr

/-- `base_position_to_msg` (core/engine_position.cpp lines 103-114). -/
def base_position_to_msg (pos : BasePosition) : BasePositionMsg :=
  { symbol := pos.symbol, quantity := pos.quantity, avg_cost := pos.avg_cost,
    cost_value := pos.cost_value, realized_pnl := pos.realized_pnl,
    mid_price := pos.mid_price, delta := pos.delta, gamma := pos.gamma,
    theta := pos.theta, vega := pos.vega }

/-- `msg_to_base_position` (core/engine_position.cpp lines 116-127): writes
the ten message fields into an existing position, leaving `multiplier` (not
part of the message) unchanged. -/
def msg_to_base_position (msg : BasePositionMsg) (pos : BasePosition) : BasePosition :=
  { pos with
    symbol := msg.symbol, quantity := msg.quantity, avg_cost := msg.avg_cost,
    cost_value := msg.cost_value, realized_pnl := msg.realized_pnl,
    mid_price := msg.mid_price, delta := msg.delta, gamma := msg.gamma,
    theta := msg.theta, vega := msg.vega }

/-- Per-strategy summary (utilities/object.hpp `PortfolioSummary`). -/
structure PortfolioSummary where
  total_cost : ℚ := 0
  current_value : ℚ := 0
  unrealized_pnl : ℚ := 0
  realized_pnl : ℚ := 0
  pnl : ℚ := 0
  delta : ℚ := 0
  gamma : ℚ := 0
  theta : ℚ := 0
  vega : ℚ := 0
  deriving DecidableEq, Repr

/-- Wire form of a combo position (otrader_engine.pb `ComboPositionMsg`);
again without any multiplier field. -/
structure ComboPositionMsg where
  symbol : String := ""
  quantity : ℤ := 0
  combo_type : String := ""
  avg_cost : ℚ := 0
  cost_value : ℚ := 0
  realized_pnl : ℚ := 0
  mid_price : ℚ := 0
  delta : ℚ := 0
  gamma : ℚ := 0
  theta : ℚ := 0
  vega : ℚ := 0
  legs : List BasePositionMsg := []
  deriving DecidableEq, Repr

/-- Wire form of a strategy holding (otrader_engine.pb `StrategyHoldingMsg`).
The protobuf encode/decode pair is an external library and is modelled as the
identity on this message structure. -/
structure StrategyHoldingMsg where
  underlying : BasePositionMsg := {}
  options : List (String × BasePositionMsg) := []
  combos : List ComboPositionMsg := []
  summary : PortfolioSummary := {}
  deriving DecidableEq, Repr

/-- Per-strategy holding (utilities/object.hpp `StrategyHolding`).  The C++
option map is modelled as an association list and the combo map as a list
(its key always equals the combo's `symbol`). -/
structure StrategyHolding where
  underlyingPosition : BasePosition := mkUnderlyingPositionData
  optionPositions : List (String × BasePosition) := []
  comboPositions : List ComboPositionData := []
  summary : PortfolioSummary := {}
  deriving DecidableEq, Repr

/-- PositionEngine::serialize_holding (core/engine_position.cpp lines
505-546), producing the message rather than its byte encoding. -/
def serialize_holding (h : StrategyHolding) : StrategyHoldingMsg :=
  { underlying := base_position_to_msg h.underlyingPosition,
    options := h.optionPositions.map (fun kv => (kv.1, base_position_to_msg kv.2)),
    combos := h.comboPositions.map (fun c =>
      { symbol := c.symbol, quantity := c.quantity,
        combo_type := combo_type_to_enum_name c.combo_type,
        avg_cost := c.avg_cost, cost_value := c.cost_value,
        realized_pnl := c.realized_pnl, mid_price := c.mid_price,
        delta := c.delta, gamma := c.gamma, theta := c.theta, vega := c.vega,
        legs := c.legs.map base_position_to_msg }),
    summary := h.summary }

/-- PositionEngine::load_serialized_holding (core/engine_position.cpp lines
548-601) applied to a freshly created holding (`get_create_strategy_holding`
default-constructs it): underlying fields come from the message into the
default `UnderlyingPositionData`, option and combo positions are rebuilt via
their constructors (multiplier 100) and overwritten from the message. -/
def load_serialized_holding (msg : StrategyHoldingMsg) : StrategyHolding :=
  { underlyingPosition := msg_to_base_position msg.underlying mkUnderlyingPositionData,
    optionPositions := msg.options.map (fun kv =>
      (kv.1, msg_to_base_position kv.2 (mkOptionPositionData kv.1))),
    comboPositions := msg.combos.map (fun cm =>
      { mkComboPositionData cm.symbol with
        quantity := cm.quantity,
        combo_type := combo_type_from_string cm.combo_type,
        avg_cost := cm.avg_cost, cost_value := cm.cost_value,
        realized_pnl := cm.realized_pnl, mid_price := cm.mid_price,
        delta := cm.delta, gamma := cm.gamma, theta := cm.theta, vega := cm.vega,
        legs := cm.legs.map (fun lm =>
          msg_to_base_position lm (mkOptionPositionData lm.symbol)) }),
    summary := msg.summary }

/-- Multipliers as set by the position constructors: 1 for the underlying
position, 100 for option positions, combos and combo legs.  Every holding the
engine ever builds satisfies this, since no code path mutates multiplier. -/
def holding_default_multipliers (h : StrategyHolding) : Prop :=
  h.underlyingPosition.multiplier = 1 ∧
  (∀ kv ∈ h.optionPositions, (kv : String × BasePosition).2.multiplier = 100) ∧
  (∀ c ∈ h.comboPositions, (c : ComboPositionData).multiplier = 100 ∧
    ∀ leg ∈ c.legs, (leg : BasePosition).multiplier = 100)

theorem combo_type_round_trip (t : ComboType) :
    combo_type_from_string (combo_type_to_enum_name t) = t := by
  cases t <;> rfl

theorem msg_round_trip_base (k : String) (p : BasePosition) (h : p.multiplier = 100) :
    msg_to_base_position (base_position_to_msg p) (mkOptionPositionData k) = p := by
  cases p
  simp_all [msg_to_base_position, base_position_to_msg, mkOptionPositionData]

theorem msg_round_trip_underlying (p : BasePosition) (h : p.multiplier = 1) :
    msg_to_base_position (base_position_to_msg p) mkUnderlyingPositionData = p := by
  cases p
  simp_all [msg_to_base_position, base_position_to_msg, mkUnderlyingPositionData]

/-- C8 (amended): serialize/load of a strategy holding is the identity for
every holding whose positions carry their constructor-default multipliers
(the message has no multiplier field, so load restores the defaults). -/
theorem C8_holding_round_trip (h : StrategyHolding)
    (hd : holding_default_multipliers h) :
    load_serialized_holding (serialize_holding h) = h := by
  obtain ⟨h1, h2, h3⟩ := hd
  unfold load_serialized_holding serialize_holding
  simp only [List.map_map]
  cases h with
  | mk u opts combos summary =>
    simp only at h1 h2 h3
    congr 1
    · exact msg_round_trip_underlying u h1
    · refine (List.map_congr_left fun kv hkv => ?_).trans (List.map_id opts)
      have := h2 kv hkv
      simp only [Function.comp_apply, id_eq]
      exact congrArg (fun p => ((kv.1 : String), p)) (msg_round_trip_base kv.1 kv.2 this)
    · refine (List.map_congr_left fun c hc => ?_).trans (List.map_id combos)
      obtain ⟨hcm, hlegs⟩ := h3 c hc
      simp only [Function.comp_apply, id_eq]
      cases c with
      | mk base ct legs =>
        cases base
        simp only at hcm hlegs
        simp_all [mkComboPositionData, combo_type_round_trip]
        refine (List.map_congr_left fun leg hleg => ?_).trans (List.map_id legs)
        simp only [Function.comp_apply, id_eq]
        exact msg_round_trip_base _ leg (hlegs leg hleg)

/-- Holding with a non-default option multiplier, for the C8
counterexample. -/
def holdingC8bad : StrategyHolding :=
  { optionPositions := [("A", { symbol := "A", multiplier := 7 })] }

/-- C8 counterexample: a holding whose option position carries multiplier 7
does not round-trip: the message has no multiplier field, and load resets it
to the OptionPositionData constructor default 100. -/
theorem C8_counterexample_multiplier :
    load_serialized_holding (serialize_holding holdingC8bad) ≠ holdingC8bad := by
  intro hEq
  have h2 := congrArg
    (fun s : StrategyHolding => ((s.optionPositions.headD ("", {})).2).multiplier) hEq
  norm_num [load_serialized_holding, serialize_holding, holdingC8bad,
    msg_to_base_position, base_position_to_msg, mkOptionPositionData] at h2

/-- Concrete option position with the default multiplier, for the C8
witness. -/
def optPosC8 : BasePosition :=
  { symbol := "OPT1", quantity := -2, avg_cost := 4, realized_pnl := 7,
    multiplier := 100 }

/-- Concrete combo position with the default multipliers, for the C8
witness. -/
def comboPosC8 : ComboPositionData :=
  { symbol := "combo_X", quantity := 1, avg_cost := 18, multiplier := 100,
    combo_type := .STRADDLE,
    legs := [{ symbol := "L1", quantity := 1, multiplier := 100 }] }

/-- Concrete holding with default multipliers, one option, one combo with a
leg, for the C8 witness. -/
def holdingC8good : StrategyHolding :=
  { underlyingPosition := { mkUnderlyingPositionData with quantity := 3, avg_cost := 5 },
    optionPositions := [("OPT1", optPosC8)],
    comboPositions := [comboPosC8],
    summary := { pnl := 11, delta := 2 } }

/-- C8 witness: the round-trip theorem at a concrete holding. -/
theorem C8_holding_round_trip_witness :
    holding_default_multipliers holdingC8good ∧
    load_serialized_holding (serialize_holding holdingC8good) = holdingC8good :=
  ⟨by simp [holding_default_multipliers, holdingC8good, optPosC8, comboPosC8, mkUnderlyingPositionData],
    C8_holding_round_trip holdingC8good
      (by simp [holding_default_multipliers, holdingC8good, optPosC8, comboPosC8, mkUnderlyingPositionData])⟩

/-! ### Portfolio snapshot apply (utilities/portfolio.cpp, black_scholes.cpp) -/

/-- The numeric routines external to this repository: `std::sqrt`,
`std::log`, `std::exp`, `std::erf` and the LetsBeRational implied-volatility
solver `implied_volatility_from_a_transformed_rational_guess`.  They are
parameters of the embedding; theorems assume only documented mathematical
properties of them (the erf bound). -/
structure NumFuncs where
  sqrtQ : ℚ → ℚ
  logQ : ℚ → ℚ
  expQ : ℚ → ℚ
  erfQ : ℚ → ℚ
  solverQ : ℚ → ℚ → ℚ → ℚ → Bool → ℚ

/-- The literal 0.3989422804014327 of black_scholes.cpp. -/
def inv_sqrt_2pi : ℚ := 3989422804014327 / 10 ^ 16

/-- The literal 0.70710678118654752440 of black_scholes.cpp. -/
def inv_sqrt_2 : ℚ := 70710678118654752440 / 10 ^ 20

/-- `normal_pdf` (black_scholes.cpp lines 15-18). -/
def normal_pdf (nf : NumFuncs) (x : ℚ) : ℚ :=
  inv_sqrt_2pi * nf.expQ (-(1/2) * (x * x))

/-- `normal_cdf` (black_scholes.cpp lines 20-23). -/
def normal_cdf (nf : NumFuncs) (x : ℚ) : ℚ :=
  (1/2) * (1 + nf.erfQ (x * inv_sqrt_2))

/-- `bs_vega_raw` (black_scholes.cpp lines 25-32). -/
def bs_vega_raw (nf : NumFuncs) (s k t r sigma : ℚ) : ℚ :=
  if s ≤ 0 ∨ k ≤ 0 ∨ t ≤ 0 ∨ sigma ≤ 0 then 0
  else
    let sqrt_t : ℚ := nf.sqrtQ t
    let d1 : ℚ := (nf.logQ (s / k) + (r + (1/2) * sigma * sigma) * t) / (sigma * sqrt_t)
    s * normal_pdf nf d1 * sqrt_t

/-- Black-Scholes greeks record (black_scholes.hpp `BsGreeks`). -/
structure BsGreeks where
  delta : ℚ := 0
  gamma : ℚ := 0
  theta : ℚ := 0
  vega : ℚ := 0
  deriving DecidableEq, Repr

/-- `bs_greeks` (black_scholes.cpp lines 62-85): all-zero on degenerate
inputs, otherwise delta from the normal CDF, per-day theta, per-1% vega. -/
def bs_greeks (nf : NumFuncs) (is_call : Bool) (spot strike t r sigma : ℚ) : BsGreeks :=
  if spot ≤ 0 ∨ strike ≤ 0 ∨ t ≤ 0 ∨ sigma ≤ 0 then {}
  else
    let sqrt_t : ℚ := nf.sqrtQ t
    let d1 : ℚ :=
      (nf.logQ (spot / strike) + (r + (1/2) * sigma * sigma) * t) / (sigma * sqrt_t)
    let d2 : ℚ := d1 - sigma * sqrt_t
    let pdf : ℚ := normal_pdf nf d1
    let df : ℚ := nf.expQ (-r * t)
    { delta := if is_call then normal_cdf nf d1 else normal_cdf nf d1 - 1,
      gamma := pdf / (spot * sigma * sqrt_t),
      theta := (if is_call then
          (-(spot * pdf * sigma) / (2 * sqrt_t)) - r * strike * df * normal_cdf nf d2
        else
          (-(spot * pdf * sigma) / (2 * sqrt_t)) + r * strike * df * normal_cdf nf (-d2))
        / 365,
      vega := bs_vega_raw nf spot strike t r sigma / 100 }

/-- `implied_volatility_from_price` (black_scholes.cpp lines 87-99): guard
degenerate inputs, call the external solver, map non-positive output to 0
and clamp to `kMaxVol = 5`.  (The C++ additionally maps non-finite solver
output to 0; NaN and infinity have no counterpart in the exact rational
model, every model value being finite.) -/
def implied_volatility_from_price (nf : NumFuncs) (option_price spot strike t : ℚ)
    (is_call : Bool) : ℚ :=
  if option_price ≤ 0 ∨ spot ≤ 0 ∨ strike ≤ 0 ∨ t ≤ 0 then 0
  else
    let iv : ℚ := nf.solverQ option_price spot strike t is_call
    if iv ≤ 0 then 0 else min iv 5

/-- `pick_iv_input_price` (black_scholes.cpp lines 36-47).  The portfolio
stores the mode already validated and lower-cased by set_iv_price_mode, so
the C++ tolower pass is the identity here. -/
def pick_iv_input_price (bid ask : ℚ) (mode : String) : ℚ :=
  if mode = "bid" then (if 0 < bid then bid else 0)
  else if mode = "ask" then (if 0 < ask then ask else 0)
  else (if 0 < bid ∧ 0 < ask then (bid + ask) / 2 else (if 0 < bid then bid else ask))

/-- `years_to_expiry` (black_scholes.cpp lines 49-60), with time points
modelled as epoch seconds: 0 without an expiry or at/past it, otherwise
`max(1e-6, seconds / (365.25 * 24 * 3600))`. -/
def years_to_expiry (now : ℤ) (expiry : Option ℤ) : ℚ :=
  match expiry with
  | none => 0
  | some e =>
    let secs : ℤ := e - now
    if secs ≤ 0 then 0 else max (1 / 1000000) ((secs : ℚ) / 31557600)

/-- Option market state (utilities/portfolio.hpp `OptionData`), restricted
to the fields apply_frame reads and writes. -/
structure OptionData where
  symbol : String := ""
  size : ℚ := 100
  strike_price : Option ℚ := none
  option_type : ℤ := 1
  option_expiry : Option ℤ := none
  bid_price : ℚ := 0
  ask_price : ℚ := 0
  mid_price : ℚ := 0
  delta : ℚ := 0
  gamma : ℚ := 0
  theta : ℚ := 0
  vega : ℚ := 0
  mid_iv : ℚ := 0
  deriving DecidableEq, Repr

/-- Underlying market state (utilities/portfolio.hpp `UnderlyingData`),
restricted to the fields apply_frame and the hedge plan read and write. -/
structure UnderlyingData where
  symbol : String := ""
  size : ℚ := 1
  bid_price : ℚ := 0
  ask_price : ℚ := 0
  mid_price : ℚ := 0
  theo_delta : ℚ := 1
  deriving DecidableEq, Repr

/-- Portfolio state (utilities/portfolio.hpp `PortfolioData`): the fixed
apply order (options by value, the C++ pointers always pointing into the
portfolio's own option map), the optional underlying, and the IV
configuration.  Chains only carry ATM bookkeeping that apply_frame's option
writes never read, so they are not modelled. -/
structure PortfolioData where
  name : String := ""
  underlying : Option UnderlyingData := none
  option_apply_order : List OptionData := []
  risk_free_rate : ℚ := 1/20
  iv_price_mode : String := "mid"
  deriving DecidableEq, Repr

/-- Compact positional market frame (utilities/object.hpp
`PortfolioSnapshot`), with the datetime as epoch seconds. -/
structure PortfolioSnapshot where
  portfolio_name : String := ""
  datetime : ℤ := 0
  underlying_bid : ℚ := 0
  underlying_ask : ℚ := 0
  underlying_last : ℚ := 0
  bid : List ℚ := []
  ask : List ℚ := []
  last : List ℚ := []
  deriving DecidableEq, Repr

/-- The spot price apply_frame derives from the snapshot's underlying quotes
(portfolio.cpp lines 276-281). -/
def snapshot_spot (snap : PortfolioSnapshot) : ℚ :=
  if 0 < snap.underlying_bid ∨ 0 < snap.underlying_ask then
    (if 0 < snap.underlying_bid ∧ 0 < snap.underlying_ask then
      (1/2) * (snap.underlying_bid + snap.underlying_ask)
    else (if 0 < snap.underlying_bid then snap.underlying_bid else snap.underlying_ask))
  else snap.underlying_last

/-- The per-option work of apply_frame at index `i`: the worker-loop IV and
greeks computation into zero-initialized slots (portfolio.cpp lines
301-326) fused with the serial write-back (lines 333-350), which is
equivalent because each index owns its slots. -/
def apply_frame_option (nf : NumFuncs) (r : ℚ) (mode : String) (spot : ℚ)
    (snap : PortfolioSnapshot) (i : ℕ) (opt : OptionData) : OptionData :=
  let bid : ℚ := snap.bid.getD i 0
  let ask : ℚ := snap.ask.getD i 0
  let last : ℚ := snap.last.getD i 0
  let k : ℚ := opt.strike_price.getD 0
  let t : ℚ := years_to_expiry snap.datetime opt.option_expiry
  let is_call : Bool := decide (0 < opt.option_type)
  let iv_g : ℚ × BsGreeks :=
    if spot ≤ 0 ∨ k ≤ 0 ∨ t ≤ 0 then (0, {})
    else
      let px : ℚ := pick_iv_input_price bid ask mode
      if px ≤ 0 then (0, {})
      else
        let iv : ℚ := implied_volatility_from_price nf px spot k t is_call
        (iv, bs_greeks nf is_call spot k t r iv)
  let sz : ℚ := if opt.size ≠ 0 then opt.size else 1
  { opt with
    bid_price := bid, ask_price := ask,
    mid_price := if 0 < bid ∧ 0 < ask then (1/2) * (bid + ask)
      else (if 0 < bid then bid else last),
    delta := iv_g.2.delta * sz, gamma := iv_g.2.gamma * sz,
    theta := iv_g.2.theta * sz, vega := iv_g.2.vega * sz,
    mid_iv := iv_g.1 }

/-- The `for (i = 0; i < n; ++i)` option loop of apply_frame, as an indexed
map over the apply order. -/
def apply_frame_loop (nf : NumFuncs) (r : ℚ) (mode : String) (spot : ℚ)
    (snap : PortfolioSnapshot) : ℕ → List OptionData → List OptionData
  | _, [] => []
  | i, opt :: rest =>
    apply_frame_option nf r mode spot snap i opt ::
      apply_frame_loop nf r mode spot snap (i + 1) rest

/-- PortfolioData::apply_frame (portfolio.cpp lines 266-356): write the
underlying quotes from the snapshot, return early when the apply order's
length differs from the snapshot's bid vector, otherwise rewrite every
option from the snapshot.  The final chain ATM recompute only touches
chain-level fields that are not part of this model. -/
def apply_frame (nf : NumFuncs) (p : PortfolioData) (snap : PortfolioSnapshot) :
    PortfolioData :=
  let p1 : PortfolioData :=
    { p with
      underlying := p.underlying.map (fun u =>
        { u with
          bid_price := snap.underlying_bid, ask_price := snap.underlying_ask,
          mid_price := snap.underlying_last }) }
  if p1.option_apply_order.length ≠ snap.bid.length then p1
  else
    { p1 with
      option_apply_order :=
        apply_frame_loop nf p.risk_free_rate p.iv_price_mode (snapshot_spot snap) snap 0
          p1.option_apply_order }

theorem apply_frame_loop_getD (nf : NumFuncs) (r : ℚ) (mode : String) (spot : ℚ)
    (snap : PortfolioSnapshot) (l : List OptionData) (i j : ℕ) (hj : j < l.length) :
    (apply_frame_loop nf r mode spot snap i l).getD j {} =
      apply_frame_option nf r mode spot snap (i + j) (l.getD j {}) := by
  induction l generalizing i j with
  | nil => simp at hj
  | cons a rest ih =>
    cases j with
    | zero => simp [apply_frame_loop, List.getD]
    | succ j =>
      have hj2 : j < rest.length := by simpa using hj
      simp only [apply_frame_loop, List.getD_cons_succ]
      rw [ih (i + 1) j hj2]
      congr 1
      omega

theorem apply_frame_getD (nf : NumFuncs) (p : PortfolioData) (snap : PortfolioSnapshot)
    (hlen : p.option_apply_order.length = snap.bid.length) (i : ℕ)
    (hi : i < p.option_apply_order.length) :
    (apply_frame nf p snap).option_apply_order.getD i {} =
      apply_frame_option nf p.risk_free_rate p.iv_price_mode (snapshot_spot snap) snap i
        (p.option_apply_order.getD i {}) := by
  unfold apply_frame
  rw [if_neg (by simpa using hlen)]
  simpa using apply_frame_loop_getD nf p.risk_free_rate p.iv_price_mode
    (snapshot_spot snap) snap p.option_apply_order 0 i hi

/-- Shared concrete instantiation of the external numeric routines, used by
witnesses and counterexamples: an erf that is identically 0 (within the erf
bound) and a solver returning volatility 2. -/
def nf0 : NumFuncs :=
  { sqrtQ := fun _ => 0, logQ := fun _ => 0, expQ := fun _ => 0,
    erfQ := fun _ => 0, solverQ := fun _ _ _ _ _ => 2 }

theorem nf0_erf_bound : ∀ x : ℚ, |nf0.erfQ x| ≤ 1 := by
  intro x
  norm_num [nf0]

/-! #### C4: length-mismatched snapshot -/

/-- What apply_frame actually does on a length-mismatched snapshot: every
option and every configuration field is untouched, but the underlying's
bid/ask/mid have already been overwritten from the snapshot. -/
def apply_frame_mismatch_spec (nf : NumFuncs) (p : PortfolioData)
    (snap : PortfolioSnapshot) : Prop :=
  (apply_frame nf p snap).option_apply_order = p.option_apply_order ∧
  (apply_frame nf p snap).name = p.name ∧
  (apply_frame nf p snap).risk_free_rate = p.risk_free_rate ∧
  (apply_frame nf p snap).iv_price_mode = p.iv_price_mode ∧
  (apply_frame nf p snap).underlying = p.underlying.map (fun u =>
    { u with
      bid_price := snap.underlying_bid, ask_price := snap.underlying_ask,
      mid_price := snap.underlying_last })

/-- C4 (amended): on a snapshot whose bid vector's length differs from the
apply order, apply_frame leaves every option and configuration field
unchanged, but still overwrites the underlying's bid_price, ask_price and
mid_price from the snapshot (the underlying update precedes the length
check, and the check compares only the bid vector). -/
theorem C4_apply_frame_mismatch (nf : NumFuncs) (p : PortfolioData)
    (snap : PortfolioSnapshot)
    (h : p.option_apply_order.length ≠ snap.bid.length) :
    apply_frame_mismatch_spec nf p snap := by
  unfold apply_frame_mismatch_spec apply_frame
  rw [if_pos (by simpa using h)]
  exact ⟨rfl, rfl, rfl, rfl, rfl⟩

/-- Concrete underlying with nonzero quotes, for C4. -/
def underC4 : UnderlyingData :=
  { symbol := "SPX", bid_price := 1, ask_price := 2, mid_price := 3 }

/-- Concrete portfolio with one option and an underlying, for C4. -/
def pC4 : PortfolioData :=
  { underlying := some underC4, option_apply_order := [{ symbol := "O1" }] }

/-- Concrete snapshot with empty option vectors (mismatched length) and
fresh underlying quotes, for C4. -/
def snapC4 : PortfolioSnapshot :=
  { underlying_bid := 7, underlying_ask := 8, underlying_last := 9 }

/-- C4 counterexample: a mismatched snapshot is NOT a no-op - the options
are untouched but the underlying's bid price changes from 1 to 7. -/
theorem C4_counterexample_underlying_written :
    apply_frame nf0 pC4 snapC4 ≠ pC4 ∧
    ((apply_frame nf0 pC4 snapC4).underlying.getD {}).bid_price = 7 ∧
    (pC4.underlying.getD {}).bid_price = 1 ∧
    (apply_frame nf0 pC4 snapC4).option_apply_order = pC4.option_apply_order := by
  refine ⟨?_, ?_, ?_, ?_⟩
  · intro hEq
    have h2 := congrArg (fun q : PortfolioData => (q.underlying.getD {}).bid_price) hEq
    norm_num [apply_frame, pC4, snapC4, underC4] at h2
  · norm_num [apply_frame, pC4, snapC4, underC4]
  · norm_num [pC4, underC4]
  · norm_num [apply_frame, pC4, snapC4]

/-- C4 witness: the amended mismatch theorem at the concrete portfolio and
snapshot. -/
theorem C4_apply_frame_mismatch_witness :
    pC4.option_apply_order.length ≠ snapC4.bid.length ∧
    apply_frame_mismatch_spec nf0 pC4 snapC4 :=
  ⟨by norm_num [pC4, snapC4],
    C4_apply_frame_mismatch nf0 pC4 snapC4 (by norm_num [pC4, snapC4])⟩

/-! #### C6: IV clamp and delta bound -/

theorem implied_volatility_bounds (nf : NumFuncs) (px s k t : ℚ) (c : Bool) :
    0 ≤ implied_volatility_from_price nf px s k t c ∧
    implied_volatility_from_price nf px s k t c ≤ 5 := by
  simp only [implied_volatility_from_price]
  split_ifs with h1 h2
  · norm_num
  · norm_num
  · exact ⟨le_min (by linarith [not_le.mp h2]) (by norm_num), min_le_right _ _⟩

theorem normal_cdf_bounds (nf : NumFuncs) (herf : ∀ x : ℚ, |nf.erfQ x| ≤ 1) (x : ℚ) :
    0 ≤ normal_cdf nf x ∧ normal_cdf nf x ≤ 1 := by
  have h := abs_le.mp (herf (x * inv_sqrt_2))
  unfold normal_cdf
  constructor <;> linarith [h.1, h.2]

theorem cdf_delta_bound (nf : NumFuncs) (herf : ∀ x : ℚ, |nf.erfQ x| ≤ 1)
    (b : Bool) (y : ℚ) :
    |(if b then normal_cdf nf y else normal_cdf nf y - 1 : ℚ)| ≤ 1 := by
  obtain ⟨h1, h2⟩ := normal_cdf_bounds nf herf y
  cases b <;> simp <;> rw [abs_le] <;> constructor <;> linarith

theorem bs_greeks_delta_bound (nf : NumFuncs) (herf : ∀ x : ℚ, |nf.erfQ x| ≤ 1)
    (is_call : Bool) (spot strike t r sigma : ℚ) :
    |(bs_greeks nf is_call spot strike t r sigma).delta| ≤ 1 := by
  by_cases h : (spot ≤ 0 ∨ strike ≤ 0 ∨ t ≤ 0 ∨ sigma ≤ 0)
  · simp only [bs_greeks]
    rw [if_pos h]
    simp
  · simp only [bs_greeks]
    rw [if_neg h]
    simpa using cdf_delta_bound nf herf is_call
      ((nf.logQ (spot / strike) + (r + (1/2) * sigma * sigma) * t) / (sigma * nf.sqrtQ t))

theorem apply_frame_option_bounds (nf : NumFuncs)
    (herf : ∀ x : ℚ, |nf.erfQ x| ≤ 1) (r : ℚ) (mode : String) (spot : ℚ)
    (snap : PortfolioSnapshot) (i : ℕ) (opt : OptionData) (hsz : 0 < opt.size) :
    0 ≤ (apply_frame_option nf r mode spot snap i opt).mid_iv ∧
    (apply_frame_option nf r mode spot snap i opt).mid_iv ≤ 5 ∧
    |(apply_frame_option nf r mode spot snap i opt).delta| ≤
      (apply_frame_option nf r mode spot snap i opt).size := by
  have hszne : opt.size ≠ 0 := ne_of_gt hsz
  simp only [apply_frame_option, hszne, ite_true, if_pos]
  split_ifs with h1 h2
  · simp [hsz.le]
  · simp [hsz.le]
  · refine ⟨?_, ?_, ?_⟩
    · simpa using (implied_volatility_bounds nf _ spot _ _ _).1
    · simpa using (implied_volatility_bounds nf _ spot _ _ _).2
    · have hd := bs_greeks_delta_bound nf herf (decide (0 < opt.option_type)) spot
        (opt.strike_price.getD 0) (years_to_expiry snap.datetime opt.option_expiry) r
        (implied_volatility_from_price nf
          (pick_iv_input_price (snap.bid.getD i 0) (snap.ask.getD i 0) mode) spot
          (opt.strike_price.getD 0) (years_to_expiry snap.datetime opt.option_expiry)
          (decide (0 < opt.option_type)))
      simp only
      rw [abs_mul, abs_of_pos hsz]
      exact mul_le_of_le_one_left hsz.le hd

/-- The conclusion of claim C6 for the option at index `i`: after
apply_frame its mid_iv lies in `[0, 5]` and its written delta is bounded by
its size. -/
def apply_frame_iv_delta_spec (nf : NumFuncs) (p : PortfolioData)
    (snap : PortfolioSnapshot) (i : ℕ) : Prop :=
  0 ≤ ((apply_frame nf p snap).option_apply_order.getD i {}).mid_iv ∧
  ((apply_frame nf p snap).option_apply_order.getD i {}).mid_iv ≤ 5 ∧
  |((apply_frame nf p snap).option_apply_order.getD i {}).delta| ≤
    ((apply_frame nf p snap).option_apply_order.getD i {}).size

/-- C6 (amended): after apply_frame on a matching-length snapshot, every
apply-order option with positive strike, positive time-to-expiry, positive
IV-input price and positive size satisfies `0 ≤ mid_iv ≤ 5` and
`|delta| ≤ size`, for any external solver and any erf within its
mathematical bound. -/
theorem C6_apply_frame_iv_delta (nf : NumFuncs)
    (herf : ∀ x : ℚ, |nf.erfQ x| ≤ 1) (p : PortfolioData)
    (snap : PortfolioSnapshot) (i : ℕ)
    (hlen : p.option_apply_order.length = snap.bid.length)
    (hi : i < p.option_apply_order.length)
    (hk : 0 < (p.option_apply_order.getD i {}).strike_price.getD 0)
    (ht : 0 < years_to_expiry snap.datetime
      (p.option_apply_order.getD i {}).option_expiry)
    (hpx : 0 < pick_iv_input_price (snap.bid.getD i 0) (snap.ask.getD i 0)
      p.iv_price_mode)
    (hsz : 0 < (p.option_apply_order.getD i {}).size) :
    apply_frame_iv_delta_spec nf p snap i := by
  unfold apply_frame_iv_delta_spec
  rw [apply_frame_getD nf p snap hlen i hi]
  exact apply_frame_option_bounds nf herf _ _ _ _ _ _ hsz

/-- Option with size 0, for the C6 counterexample. -/
def optC6bad : OptionData :=
  { symbol := "O", size := 0, strike_price := some 1, option_type := 1,
    option_expiry := some 31557600 }

/-- Portfolio holding only the size-0 option, for the C6 counterexample. -/
def pC6bad : PortfolioData := { option_apply_order := [optC6bad] }

/-- Snapshot with unit quotes one year before expiry, for C6. -/
def snapC6 : PortfolioSnapshot :=
  { datetime := 0, underlying_bid := 1, underlying_ask := 1,
    bid := [1], ask := [1], last := [1] }

/-- C6 counterexample: an option with `size = 0` but positive strike,
time-to-expiry and IV-input price gets delta written as `unit_delta * 1`
(the code substitutes 1 for a zero size), here 1/2, which violates
`|delta| ≤ size = 0`; so the claim fails without a positive-size
hypothesis. -/
theorem C6_counterexample_zero_size :
    0 < (pC6bad.option_apply_order.getD 0 {}).strike_price.getD 0 ∧
    0 < years_to_expiry snapC6.datetime
      (pC6bad.option_apply_order.getD 0 {}).option_expiry ∧
    0 < pick_iv_input_price (snapC6.bid.getD 0 0) (snapC6.ask.getD 0 0)
      pC6bad.iv_price_mode ∧
    ((apply_frame nf0 pC6bad snapC6).option_apply_order.getD 0 {}).delta = 1/2 ∧
    ((apply_frame nf0 pC6bad snapC6).option_apply_order.getD 0 {}).size = 0 ∧
    ¬(|((apply_frame nf0 pC6bad snapC6).option_apply_order.getD 0 {}).delta| ≤
      ((apply_frame nf0 pC6bad snapC6).option_apply_order.getD 0 {}).size) := by
  have hget := apply_frame_getD nf0 pC6bad snapC6 (by norm_num [pC6bad, snapC6]) 0
    (by norm_num [pC6bad])
  refine ⟨?_, ?_, ?_, ?_, ?_, ?_⟩ <;>
    (try rw [hget]) <;>
    norm_num [apply_frame_option, years_to_expiry, pick_iv_input_price,
      implied_volatility_from_price, bs_greeks, normal_cdf, snapshot_spot,
      nf0, pC6bad, snapC6, optC6bad, lt_max_iff]

/-- Option with the standard multiplier 100, for the C6 witness. -/
def optC6good : OptionData :=
  { symbol := "O", size := 100, strike_price := some 1, option_type := 1,
    option_expiry := some 31557600 }

/-- Portfolio holding the standard option, for the C6 witness. -/
def pC6good : PortfolioData := { option_apply_order := [optC6good] }

/-- C6 witness: the amended theorem at a concrete option with size 100. -/
theorem C6_apply_frame_iv_delta_witness :
    ((∀ x : ℚ, |nf0.erfQ x| ≤ 1) ∧
      pC6good.option_apply_order.length = snapC6.bid.length ∧
      0 < pC6good.option_apply_order.length ∧
      0 < (pC6good.option_apply_order.getD 0 {}).strike_price.getD 0 ∧
      0 < years_to_expiry snapC6.datetime
        (pC6good.option_apply_order.getD 0 {}).option_expiry ∧
      0 < pick_iv_input_price (snapC6.bid.getD 0 0) (snapC6.ask.getD 0 0)
        pC6good.iv_price_mode ∧
      0 < (pC6good.option_apply_order.getD 0 {}).size) ∧
    apply_frame_iv_delta_spec nf0 pC6good snapC6 0 :=
  ⟨⟨nf0_erf_bound, by norm_num [pC6good, snapC6], by norm_num [pC6good],
      by norm_num [pC6good, optC6good], by norm_num [pC6good, optC6good, snapC6,
        years_to_expiry, lt_max_iff],
      by norm_num [pC6good, snapC6, pick_iv_input_price],
      by norm_num [pC6good, optC6good]⟩,
    C6_apply_frame_iv_delta nf0 nf0_erf_bound pC6good snapC6 0
      (by norm_num [pC6good, snapC6]) (by norm_num [pC6good])
      (by norm_num [pC6good, optC6good])
      (by norm_num [pC6good, optC6good, snapC6, years_to_expiry, lt_max_iff])
      (by norm_num [pC6good, snapC6, pick_iv_input_price])
      (by norm_num [pC6good, optC6good])⟩

/-! #### C10: snapshot write-back for skipped options -/

theorem apply_frame_option_skip (nf : NumFuncs) (r : ℚ) (mode : String) (spot : ℚ)
    (snap : PortfolioSnapshot) (i : ℕ) (opt : OptionData)
    (hskip : spot ≤ 0 ∨ opt.strike_price.getD 0 ≤ 0 ∨
      years_to_expiry snap.datetime opt.option_expiry ≤ 0 ∨
      pick_iv_input_price (snap.bid.getD i 0) (snap.ask.getD i 0) mode ≤ 0) :
    (apply_frame_option nf r mode spot snap i opt).delta = 0 ∧
    (apply_frame_option nf r mode spot snap i opt).gamma = 0 ∧
    (apply_frame_option nf r mode spot snap i opt).theta = 0 ∧
    (apply_frame_option nf r mode spot snap i opt).vega = 0 ∧
    (apply_frame_option nf r mode spot snap i opt).mid_iv = 0 ∧
    (apply_frame_option nf r mode spot snap i opt).bid_price = snap.bid.getD i 0 ∧
    (apply_frame_option nf r mode spot snap i opt).ask_price = snap.ask.getD i 0 ∧
    (apply_frame_option nf r mode spot snap i opt).mid_price =
      (if 0 < snap.bid.getD i 0 ∧ 0 < snap.ask.getD i 0
        then (1/2) * (snap.bid.getD i 0 + snap.ask.getD i 0)
        else (if 0 < snap.bid.getD i 0 then snap.bid.getD i 0
          else snap.last.getD i 0)) := by
  simp only [apply_frame_option]
  split_ifs with h1 h2 <;> simp_all <;>
    first
      | tauto
      | linarith
      | (obtain ⟨ha, hb, hc⟩ := h1
         rcases hskip with h | h | h | h <;> linarith)

/-- The conclusion of claim C10 for the option at index `i`: a skipped
option has its five computed fields zeroed and its quotes written from the
snapshot. -/
def apply_frame_skip_spec (nf : NumFuncs) (p : PortfolioData)
    (snap : PortfolioSnapshot) (i : ℕ) : Prop :=
  ((apply_frame nf p snap).option_apply_order.getD i {}).delta = 0 ∧
  ((apply_frame nf p snap).option_apply_order.getD i {}).gamma = 0 ∧
  ((apply_frame nf p snap).option_apply_order.getD i {}).theta = 0 ∧
  ((apply_frame nf p snap).option_apply_order.getD i {}).vega = 0 ∧
  ((apply_frame nf p snap).option_apply_order.getD i {}).mid_iv = 0 ∧
  ((apply_frame nf p snap).option_apply_order.getD i {}).bid_price =
    snap.bid.getD i 0 ∧
  ((apply_frame nf p snap).option_apply_order.getD i {}).ask_price =
    snap.ask.getD i 0 ∧
  ((apply_frame nf p snap).option_apply_order.getD i {}).mid_price =
    (if 0 < snap.bid.getD i 0 ∧ 0 < snap.ask.getD i 0
      then (1/2) * (snap.bid.getD i 0 + snap.ask.getD i 0)
      else (if 0 < snap.bid.getD i 0 then snap.bid.getD i 0
        else snap.last.getD i 0))

/-- C10: with matching vector lengths, an apply-order option for which IV is
not computed (spot, strike, time-to-expiry or selected price non-positive)
has delta, gamma, theta, vega and mid_iv all set to zero - old values are
not retained - while its bid/ask/mid are written from the snapshot. -/
theorem C10_apply_frame_skip_zeroes (nf : NumFuncs) (p : PortfolioData)
    (snap : PortfolioSnapshot) (i : ℕ)
    (hlen : p.option_apply_order.length = snap.bid.length)
    (hlen2 : snap.ask.length = snap.bid.length)
    (hlen3 : snap.last.length = snap.bid.length)
    (hi : i < p.option_apply_order.length)
    (hskip : snapshot_spot snap ≤ 0 ∨
      (p.option_apply_order.getD i {}).strike_price.getD 0 ≤ 0 ∨
      years_to_expiry snap.datetime
        (p.option_apply_order.getD i {}).option_expiry ≤ 0 ∨
      pick_iv_input_price (snap.bid.getD i 0) (snap.ask.getD i 0)
        p.iv_price_mode ≤ 0) :
    apply_frame_skip_spec nf p snap i := by
  unfold apply_frame_skip_spec
  rw [apply_frame_getD nf p snap hlen i hi]
  exact apply_frame_option_skip nf p.risk_free_rate p.iv_price_mode
    (snapshot_spot snap) snap i (p.option_apply_order.getD i {}) hskip

/-- Stale option whose old greeks are nonzero, for the C10 witness. -/
def optC10 : OptionData :=
  { symbol := "O", size := 100, strike_price := some 1, option_type := 1,
    option_expiry := some 31557600, delta := 42, gamma := 1, theta := 2,
    vega := 3, mid_iv := 7 }

/-- Portfolio holding the stale option, for the C10 witness. -/
def pC10 : PortfolioData := { option_apply_order := [optC10] }

/-- Snapshot with no underlying quote (spot 0) but option quotes, for the
C10 witness. -/
def snapC10 : PortfolioSnapshot :=
  { datetime := 0, bid := [2], ask := [3], last := [4] }

/-- C10 witness: the skip theorem at a concrete zero-spot snapshot, which
zeroes the stale greeks and writes bid 2 / ask 3. -/
theorem C10_apply_frame_skip_zeroes_witness :
    (pC10.option_apply_order.length = snapC10.bid.length ∧
      snapC10.ask.length = snapC10.bid.length ∧
      snapC10.last.length = snapC10.bid.length ∧
      0 < pC10.option_apply_order.length ∧
      snapshot_spot snapC10 ≤ 0) ∧
    apply_frame_skip_spec nf0 pC10 snapC10 0 :=
  ⟨⟨by norm_num [pC10, snapC10], by norm_num [snapC10], by norm_num [snapC10],
      by norm_num [pC10], by norm_num [snapshot_spot, snapC10]⟩,
    C10_apply_frame_skip_zeroes nf0 pC10 snapC10 0
      (by norm_num [pC10, snapC10]) (by norm_num [snapC10])
      (by norm_num [snapC10]) (by norm_num [pC10])
      (Or.inl (by norm_num [snapshot_spot, snapC10]))⟩

end OTrader
